import Mathlib

/-!
Verification of the webhook ingestion and GitHub-App token-caching pipeline.

This file gives a shallow embedding, in Lean 4, of the core functions of the
backend under study:

* `verify_webhook_signature` and `is_duplicate_delivery`
  (from `backend/app/webhooks/github.py`),
* the `github_webhook` endpoint body and its event-routing section
  (same file),
* `get_installation_token` and `get_github_api_client_async`
  (from `backend/app/services/github_auth.py`),
* `handle_installation` / `handle_installation_repositories`
  (from `backend/app/workers/tasks.py`).

Machine integers are modelled as `Nat` with explicit masking where 32-bit
overflow matters (the SHA-256 core). Byte strings are `List Nat` with each
element below 256. The Redis store is a function from keys to absolute
expiry deadlines; time is an explicit parameter. External collaborators
(the JSON parser `json.loads`, the HTTP exchange with GitHub, the RQ queue)
are modelled as explicit inputs or as emitted effects, matching the
specification's component boundary.
-/

namespace QuantumReview

/-! ## SHA-256 (FIPS 180-4), over byte lists, 32-bit words as masked Nat -/

/-- Mask to 32 bits. -/
def mask32 (x : Nat) : Nat := x &&& 0xFFFFFFFF

/-- Addition modulo 2^32. -/
def add32 (a b : Nat) : Nat := mask32 (a + b)

/-- Right rotation of a 32-bit word. -/
def rotr32 (n x : Nat) : Nat := mask32 ((x >>> n) ||| (x <<< (32 - n)))

/-- Logical right shift of a 32-bit word. -/
def shr32 (n x : Nat) : Nat := x >>> n

/-- SHA-256 round constants (FIPS 180-4 section 4.2.2, in decimal). -/
def shaK : List Nat :=
  [1116352408, 1899447441, 3049323471, 3921009573, 961987163,
   1508970993, 2453635748, 2870763221, 3624381080, 310598401,
   607225278, 1426881987, 1925078388, 2162078206, 2614888103,
   3248222580, 3835390401, 4022224774, 264347078, 604807628,
   770255983, 1249150122, 1555081692, 1996064986, 2554220882,
   2821834349, 2952996808, 3210313671, 3336571891, 3584528711,
   113926993, 338241895, 666307205, 773529912, 1294757372,
   1396182291, 1695183700, 1986661051, 2177026350, 2456956037,
   2730485921, 2820302411, 3259730800, 3345764771, 3516065817,
   3600352804, 4094571909, 275423344, 430227734, 506948616,
   659060556, 883997877, 958139571, 1322822218, 1537002063,
   1747873779, 1955562222, 2024104815, 2227730452, 2361852424,
   2428436474, 2756734187, 3204031479, 3329325298]

/-- The eight-word SHA-256 working state. -/
structure Sha256State where
  a : Nat
  b : Nat
  c : Nat
  d : Nat
  e : Nat
  f : Nat
  g : Nat
  h : Nat

/-- SHA-256 initial hash value (FIPS 180-4 section 5.3.3, in decimal). -/
def shaInit : Sha256State :=
  ⟨1779033703, 3144134277, 1013904242, 2773480762,
   1359893119, 2600822924, 528734635, 1541459225⟩

/-- One round of the SHA-256 compression function, consuming a pair of a
message-schedule word and a round constant. -/
def shaRound (s : Sha256State) (wk : Nat × Nat) : Sha256State :=
  let S1 := (rotr32 6 s.e) ^^^ (rotr32 11 s.e) ^^^ (rotr32 25 s.e)
  let ch := (s.e &&& s.f) ^^^ ((s.e ^^^ 0xFFFFFFFF) &&& s.g)
  let t1 := mask32 (s.h + S1 + ch + wk.2 + wk.1)
  let S0 := (rotr32 2 s.a) ^^^ (rotr32 13 s.a) ^^^ (rotr32 22 s.a)
  let mj := (s.a &&& s.b) ^^^ (s.a &&& s.c) ^^^ (s.b &&& s.c)
  let t2 := add32 S0 mj
  ⟨add32 t1 t2, s.a, s.b, s.c, add32 s.d t1, s.e, s.f, s.g⟩

/-- Extend the 16 block words to the 64-word message schedule. The
accumulator holds the words produced so far, most recent first. -/
def shaExtend : Nat → List Nat → List Nat
  | 0, acc => acc.reverse
  | n + 1, acc =>
    let w2 := acc.getD 1 0
    let w7 := acc.getD 6 0
    let w15 := acc.getD 14 0
    let w16 := acc.getD 15 0
    let s0 := (rotr32 7 w15) ^^^ (rotr32 18 w15) ^^^ (shr32 3 w15)
    let s1 := (rotr32 17 w2) ^^^ (rotr32 19 w2) ^^^ (shr32 10 w2)
    shaExtend n (mask32 (w16 + s0 + w7 + s1) :: acc)

/-- Group a byte list into big-endian 32-bit words. -/
def bytesToWords : List Nat → List Nat
  | b0 :: b1 :: b2 :: b3 :: rest =>
    (((b0 <<< 24) ||| (b1 <<< 16) ||| (b2 <<< 8) ||| b3)) :: bytesToWords rest
  | _ => []

/-- Big-endian bytes of `n`, `k` bytes wide. -/
def natToBytesBE (k : Nat) (n : Nat) : List Nat :=
  match k with
  | 0 => []
  | k + 1 => natToBytesBE k (n >>> 8) ++ [n &&& 0xFF]

/-- SHA-256 padding: append `0x80`, zero bytes to 56 mod 64, then the
bit length as an 8-byte big-endian integer. -/
def shaPad (msg : List Nat) : List Nat :=
  let padLen := (64 + 56 - ((msg.length + 1) % 64)) % 64
  msg ++ [0x80] ++ List.replicate padLen 0 ++ natToBytesBE 8 (msg.length * 8)

/-- Compress one 64-byte block (given as 16 words) into the running hash. -/
def shaCompress (hv : Sha256State) (blockWords : List Nat) : Sha256State :=
  let w := shaExtend 48 blockWords.reverse
  let s := (w.zip shaK).foldl shaRound hv
  ⟨add32 hv.a s.a, add32 hv.b s.b, add32 hv.c s.c, add32 hv.d s.d,
   add32 hv.e s.e, add32 hv.f s.f, add32 hv.g s.g, add32 hv.h s.h⟩

/-- Fold the compression function over the 64-byte blocks of a padded
message. `fuel` bounds the recursion; it is instantiated with the list
length so every block is consumed. -/
def shaBlocks (fuel : Nat) (hv : Sha256State) (padded : List Nat) : Sha256State :=
  match fuel with
  | 0 => hv
  | fuel + 1 =>
    match padded with
    | [] => hv
    | l => shaBlocks fuel (shaCompress hv (bytesToWords (l.take 64))) (l.drop 64)

/-- SHA-256 digest of a byte list, as a 32-byte list. -/
def sha256 (msg : List Nat) : List Nat :=
  let padded := shaPad msg
  let s := shaBlocks padded.length shaInit padded
  natToBytesBE 4 s.a ++ natToBytesBE 4 s.b ++ natToBytesBE 4 s.c ++
  natToBytesBE 4 s.d ++ natToBytesBE 4 s.e ++ natToBytesBE 4 s.f ++
  natToBytesBE 4 s.g ++ natToBytesBE 4 s.h

/-! ## HMAC-SHA256 and hex digests (Python `hmac` / `hashlib`) -/

/-- Lowercase hex character for a nibble. -/
def hexChar (n : Nat) : Char :=
  if n < 10 then Char.ofNat (48 + n) else Char.ofNat (87 + n)

/-- Lowercase hexadecimal rendering of a byte list, two characters per
byte, as `hexdigest()` produces. -/
def hexdigest (bytes : List Nat) : String :=
  String.mk (bytes.flatMap fun b => [hexChar ((b >>> 4) &&& 0xF), hexChar (b &&& 0xF)])

/-- HMAC-SHA256 (RFC 2104) with the standard 64-byte block size, as
`hmac.new(key, msg, hashlib.sha256).digest()` computes it. -/
def hmacSha256 (key msg : List Nat) : List Nat :=
  let k0 := if 64 < key.length then sha256 key else key
  let kp := k0 ++ List.replicate (64 - k0.length) 0
  let ipadKey := kp.map fun b => b ^^^ 0x36
  let opadKey := kp.map fun b => b ^^^ 0x5c
  sha256 (opadKey ++ sha256 (ipadKey ++ msg))

/-- Python `hmac.compare_digest` on ASCII strings: a timing-balanced
equality test, functionally plain string equality. -/
def compare_digest (a b : String) : Bool := a.data == b.data

/-- String prefix test over character data (Python `str.startswith`). -/
def strStartsWith (s pre : String) : Bool := pre.data.isPrefixOf s.data

/-- Drop the first `n` characters of a string (Python slicing `s[n:]`). -/
def strDrop (s : String) (n : Nat) : String := String.mk (s.data.drop n)

/-- Python falsiness of a string: empty. -/
def strIsEmpty (s : String) : Bool := s.data == []

/-! ## Configuration (`backend/app/config.py`)

Only the fields the verified pipeline reads. The webhook secret is held as
its UTF-8 bytes, matching `settings.GITHUB_WEBHOOK_SECRET.encode("utf-8")`
at the single point of use. -/

structure Settings where
  GITHUB_WEBHOOK_SECRET : List Nat
  WEBHOOK_DELIVERY_CACHE_TTL_SECONDS : Nat := 3600

/-- Default configuration values from `config.py` (empty secret stands for
a concrete configured secret in witnesses). -/
def defaultSettings : Settings := { GITHUB_WEBHOOK_SECRET := [] }

/-! ## `verify_webhook_signature` (`backend/app/webhooks/github.py`, lines 31-58) -/

/-- Embedding of `verify_webhook_signature(payload_body, signature_header)`:
reject an empty header, reject a header not of the form `sha256=<hex>`,
otherwise compare the hex HMAC-SHA256 of the raw body under the configured
secret against the header remainder with `hmac.compare_digest`. -/
def verify_webhook_signature (secret : List Nat) (payload_body : List Nat)
    (signature_header : String) : Bool :=
  if strIsEmpty signature_header then false
  else if !(strStartsWith signature_header "sha256=") then false
  else
    compare_digest (strDrop signature_header 7)
      (hexdigest (hmacSha256 secret payload_body))

/-! ## The Redis store model

The shared key-value store is a function from keys to the absolute time at
which the entry expires. Redis drops a key at its deadline, so a key set
at time `t` with TTL `ttl` answers `EXISTS` positively exactly for
observation times strictly below `t + ttl`. Time is a `Nat` of seconds. -/

/-- Key-value store with per-key absolute expiry deadlines. -/
def Store := String → Option Nat

/-- The store with no entries. -/
def emptyStore : Store := fun _ => none

/-- Redis `EXISTS` at observation time `now`. -/
def redisExistsAt (s : Store) (now : Nat) (k : String) : Bool :=
  match s k with
  | some deadline => decide (now < deadline)
  | none => false

/-- Redis `SETEX` at time `now`: the key lives for `ttl` seconds. -/
def redisSetexAt (s : Store) (now : Nat) (k : String) (ttl : Nat) : Store :=
  fun k2 => if k2 = k then some (now + ttl) else s k2

/-! ## Effects and jobs

The observable actions of one webhook request, in program order. Jobs
carry the payload handed to `queue.enqueue`. -/

/-- JSON values, as `json.loads` produces them (numbers restricted to
integers; no claim inspects numeric payload fields). -/
inductive Json where
  | null : Json
  | bool (b : Bool) : Json
  | num (n : Int) : Json
  | str (s : String) : Json
  | arr (xs : List Json) : Json
  | obj (kvs : List (String × Json)) : Json

/-- First binding of a key in an association list. -/
def lookupKV (kvs : List (String × Json)) (k : String) : Option Json :=
  match kvs with
  | [] => none
  | (k2, v) :: rest => if k2 = k then some v else lookupKV rest k

/-- Python exceptions the embedded fragment can raise. -/
inductive PyErr where
  | attributeError : PyErr
  | unicodeDecodeError : PyErr
  deriving DecidableEq

/-- Python `payload.get(key)`: `None`-or-value on a dict, `AttributeError`
on any non-dict value. -/
def Json.pyGet (j : Json) (k : String) : Except PyErr (Option Json) :=
  match j with
  | .obj kvs => .ok (lookupKV kvs k)
  | _ => .error .attributeError

/-- Python `payload.get(key, default)` with a dict default. -/
def Json.pyGetD (j : Json) (k : String) (dflt : Json) : Except PyErr Json :=
  match j with
  | .obj kvs => .ok ((lookupKV kvs k).getD dflt)
  | _ => .error .attributeError

/-- Whether a JSON value is an object (a Python dict after `json.loads`). -/
def Json.isObj : Json → Bool
  | .obj _ => true
  | _ => false

/-- Python `payload.get("action") == s` (also covering membership tests in
a list of string literals, one disjunct per literal): true exactly when the
looked-up value is the string `s`. -/
def actionEq (a : Option Json) (s : String) : Bool :=
  match a with
  | some (.str v) => v == s
  | _ => false

/-- The background jobs `github_webhook` can enqueue, with their payloads. -/
inductive Job where
  | handle_installation (p : Json)
  | handle_installation_repositories (p : Json)
  | generate_checklist (p : Json)
  | generate_test_manifest (p : Json)
  | handle_pr_closed (p : Json)
  | process_workflow_run (p : Json)

/-- Payload carried by a job. -/
def Job.payload : Job → Json
  | .handle_installation p => p
  | .handle_installation_repositories p => p
  | .generate_checklist p => p
  | .generate_test_manifest p => p
  | .handle_pr_closed p => p
  | .process_workflow_run p => p

/-- Observable effects of one `github_webhook` request, in program order. -/
inductive Effect where
  | verifySig (ok : Bool)
  | redisExists (key : String) (present : Bool)
  | redisSetex (key : String) (ttl : Nat)
  | jsonParse (ok : Bool)
  | enqueue (j : Job)
  | publishIssueUpdated (repoId : Option Json) (action : Option Json)
      (issueNumber : Option Json) (repoFullName : Option Json)
  | logCheckEvent (et : String)

/-- Whether an effect touches the dedupe store. -/
def Effect.isDedupe : Effect → Bool
  | .redisExists _ _ => true
  | .redisSetex _ _ => true
  | _ => false

/-- Whether an effect is a JSON-parse attempt. -/
def Effect.isJsonParse : Effect → Bool
  | .jsonParse _ => true
  | _ => false

/-- Whether an effect is a job enqueue. -/
def Effect.isEnqueue : Effect → Bool
  | .enqueue _ => true
  | _ => false

/-! ## `is_duplicate_delivery` (`backend/app/webhooks/github.py`, lines 61-89) -/

/-- Redis key for a delivery id (`f"webhook:delivery:{delivery_id}"`). -/
def deliveryKey (delivery_id : String) : String :=
  "webhook:delivery:" ++ delivery_id

/-- Embedding of `is_duplicate_delivery(delivery_id)` at time `now` on
store `s`: `EXISTS` on the delivery key; if present, report a duplicate
and leave the store alone; otherwise `SETEX` the key with the configured
TTL and report a fresh delivery. Returns (result, store, effects). -/
def is_duplicate_delivery (st : Settings) (s : Store) (now : Nat)
    (delivery_id : String) : Bool × Store × List Effect :=
  let key := deliveryKey delivery_id
  if redisExistsAt s now key then
    (true, s, [.redisExists key true])
  else
    (false, redisSetexAt s now key st.WEBHOOK_DELIVERY_CACHE_TTL_SECONDS,
      [.redisExists key false,
       .redisSetex key st.WEBHOOK_DELIVERY_CACHE_TTL_SECONDS])

/-! ## The event-routing section of `github_webhook`
(`backend/app/webhooks/github.py`, lines 136-195) -/

/-- The lookups of the SSE-publish block of the `issues` branch:
`repository` (defaulting to an empty dict), its `id` and `full_name`, the
`action`, and `issue.number`. `none` when any lookup raises. -/
def issuesPublishData (p : Json) :
    Option (Option Json × Option Json × Option Json × Option Json) :=
  match (do
    let repo ← p.pyGetD "repository" (Json.obj [])
    let repoId ← repo.pyGet "id"
    let act ← p.pyGet "action"
    let issue ← p.pyGetD "issue" (Json.obj [])
    let num ← issue.pyGet "number"
    let fullName ← repo.pyGet "full_name"
    pure (repoId, act, num, fullName) :
      Except PyErr (Option Json × Option Json × Option Json × Option Json)) with
  | .ok d => some d
  | .error _ => none

/-- The SSE-publish block of the `issues` branch, which the source wraps
in `try/except Exception`: publish an `issue_updated` event from the
looked-up fields. Any exception inside the block is caught and only
logged, so a failure contributes no effect. -/
def issuesPublishEffects (p : Json) : List Effect :=
  match issuesPublishData p with
  | some (repoId, act, num, fullName) =>
    [.publishIssueUpdated repoId act num fullName]
  | none => []

/-- Embedding of the routing section of `github_webhook`: the
`if/elif` chain on `event_type`, each routed branch reading
`payload.get("action")` (an `AttributeError` on a non-dict payload
propagates) and enqueueing at most one job. Returns the enqueued jobs
together with the effects of the section in program order. The
`pull_request` branch's `elif` re-reads the same `action` key; on a dict
the second `get` returns the same value, so one lookup is shared. -/
def route_event (event_type : String) (p : Json) :
    Except PyErr (List Job × List Effect) :=
  if event_type == "installation" then
    match p.pyGet "action" with
    | .error e => .error e
    | .ok a =>
      if actionEq a "created" || actionEq a "deleted" then
        .ok ([.handle_installation p], [.enqueue (.handle_installation p)])
      else .ok ([], [])
  else if event_type == "installation_repositories" then
    match p.pyGet "action" with
    | .error e => .error e
    | .ok a =>
      if actionEq a "added" || actionEq a "removed" then
        .ok ([.handle_installation_repositories p],
          [.enqueue (.handle_installation_repositories p)])
      else .ok ([], [])
  else if event_type == "issues" then
    match p.pyGet "action" with
    | .error e => .error e
    | .ok a =>
      if actionEq a "opened" || actionEq a "edited" then
        .ok ([.generate_checklist p],
          Effect.enqueue (.generate_checklist p) :: issuesPublishEffects p)
      else .ok ([], [])
  else if event_type == "pull_request" then
    match p.pyGet "action" with
    | .error e => .error e
    | .ok a =>
      if actionEq a "opened" || actionEq a "synchronize" then
        .ok ([.generate_test_manifest p], [.enqueue (.generate_test_manifest p)])
      else if actionEq a "closed" then
        .ok ([.handle_pr_closed p], [.enqueue (.handle_pr_closed p)])
      else .ok ([], [])
  else if event_type == "workflow_run" then
    match p.pyGet "action" with
    | .error e => .error e
    | .ok a =>
      if actionEq a "completed" then
        .ok ([.process_workflow_run p], [.enqueue (.process_workflow_run p)])
      else .ok ([], [])
  else if event_type == "check_suite" || event_type == "check_run" then
    .ok ([], [.logCheckEvent event_type])
  else
    .ok ([], [])

/-! ## The `github_webhook` endpoint (`backend/app/webhooks/github.py`,
lines 92-195) -/

/-- Outcome of one request to `POST /webhooks/github`: the HTTP status
(or a propagated Python exception, which the framework surfaces as a
server error), the store after the request, the jobs enqueued, and the
effects in program order. -/
structure WebhookOutcome where
  result : Except PyErr Nat
  store : Store
  jobs : List Job
  trace : List Effect

/-- `event_type = x_github_event or "unknown"`: a missing or empty header
becomes `"unknown"`. -/
def eventTypeOf (hdr : Option String) : String :=
  match hdr with
  | some e => if strIsEmpty e then "unknown" else e
  | none => "unknown"

/-- Outcome of `json.loads(body.decode("utf-8"))`: a JSON value, a
`json.JSONDecodeError` (decodable body, invalid JSON), or a
`UnicodeDecodeError` (body not valid UTF-8). The endpoint's
`except json.JSONDecodeError` catches only the second; the third
propagates out of the handler. -/
inductive ParseOutcome where
  | ok (j : Json) : ParseOutcome
  | jsonError : ParseOutcome
  | unicodeError : ParseOutcome

/-- Embedding of the `github_webhook` endpoint body. `parse` stands for
`json.loads(body.decode("utf-8"))`; `now` is the request time; `s` the
shared store. In source order: read the raw body, verify the signature
(401 on failure), run the duplicate check when the delivery header is
truthy (200 short-circuit on a duplicate), decode and parse the body
(400 on a JSON decode error, an escaping `UnicodeDecodeError` on an
undecodable body), and run the routing section. -/
def github_webhook (parse : List Nat → ParseOutcome) (st : Settings)
    (body : List Nat) (sigHdr delivHdr eventHdr : Option String)
    (s : Store) (now : Nat) : WebhookOutcome :=
  if !(verify_webhook_signature st.GITHUB_WEBHOOK_SECRET body (sigHdr.getD "")) then
    { result := .ok 401, store := s, jobs := [], trace := [.verifySig false] }
  else
    let delivery := delivHdr.getD ""
    let dedupe :=
      if strIsEmpty delivery then (false, s, ([] : List Effect))
      else is_duplicate_delivery st s now delivery
    if dedupe.1 then
      { result := .ok 200, store := dedupe.2.1, jobs := [],
        trace := Effect.verifySig true :: dedupe.2.2 }
    else
      match parse body with
      | .unicodeError =>
        { result := .error .unicodeDecodeError, store := dedupe.2.1, jobs := [],
          trace := Effect.verifySig true :: dedupe.2.2 ++ [.jsonParse false] }
      | .jsonError =>
        { result := .ok 400, store := dedupe.2.1, jobs := [],
          trace := Effect.verifySig true :: dedupe.2.2 ++ [.jsonParse false] }
      | .ok payload =>
        match route_event (eventTypeOf eventHdr) payload with
        | .ok (jobs, effs) =>
          { result := .ok 200, store := dedupe.2.1, jobs := jobs,
            trace := Effect.verifySig true :: dedupe.2.2 ++
              Effect.jsonParse true :: effs }
        | .error e =>
          { result := .error e, store := dedupe.2.1, jobs := [],
            trace := Effect.verifySig true :: dedupe.2.2 ++ [.jsonParse true] }

/-! ## Interleaving model of the duplicate check (for the atomicity claim)

`is_duplicate_delivery` issues `EXISTS` and `SETEX` as two separate
awaited round trips. Each in-flight call is a tiny machine: before the
`EXISTS`, between the two commands, or returned. A schedule interleaves
the steps of two calls for the same delivery id against the shared
store. -/

/-- Progress of one in-flight `is_duplicate_delivery` call. -/
inductive DedupClient where
  | beforeExists : DedupClient
  | sawAbsent : DedupClient
  | returned (result : Bool) : DedupClient
  deriving DecidableEq

/-- One round trip of an in-flight call against the store at time `now`. -/
def dedupStep (st : Settings) (now : Nat) (delivery_id : String)
    (s : Store) (c : DedupClient) : Store × DedupClient :=
  match c with
  | .beforeExists =>
    if redisExistsAt s now (deliveryKey delivery_id) then (s, .returned true)
    else (s, .sawAbsent)
  | .sawAbsent =>
    (redisSetexAt s now (deliveryKey delivery_id)
      st.WEBHOOK_DELIVERY_CACHE_TTL_SECONDS, .returned false)
  | .returned r => (s, .returned r)

/-- Run a schedule of steps for two concurrent calls with the same
delivery id; `true` schedules a step of the first call. -/
def dedupRun (st : Settings) (now : Nat) (delivery_id : String) :
    List Bool → Store × DedupClient × DedupClient → Store × DedupClient × DedupClient
  | [], state => state
  | pick :: rest, (s, c1, c2) =>
    if pick then
      let (s2, c1b) := dedupStep st now delivery_id s c1
      dedupRun st now delivery_id rest (s2, c1b, c2)
    else
      let (s2, c2b) := dedupStep st now delivery_id s c2
      dedupRun st now delivery_id rest (s2, c1, c2b)

/-! ## The spec's dispatch table (section 4.3)

A second definition, written from the specification's words rather than
the source, for comparison with `route_event`: each (event_type, action)
pair maps to at most one job. -/

/-- Whether a payload's `action` field is the string `s` (the spec's
notion of the action of an event). -/
def hasAction (p : Json) (s : String) : Bool :=
  match p with
  | .obj kvs =>
    match lookupKV kvs "action" with
    | some (.str a) => a == s
    | _ => false
  | _ => false

/-- The dispatch table of spec section 4.3, transcribed row by row. -/
def specDispatchJobs (event_type : String) (p : Json) : List Job :=
  if event_type == "installation" && (hasAction p "created" || hasAction p "deleted") then
    [.handle_installation p]
  else if event_type == "installation_repositories" &&
      (hasAction p "added" || hasAction p "removed") then
    [.handle_installation_repositories p]
  else if event_type == "issues" && (hasAction p "opened" || hasAction p "edited") then
    [.generate_checklist p]
  else if event_type == "pull_request" &&
      (hasAction p "opened" || hasAction p "synchronize") then
    [.generate_test_manifest p]
  else if event_type == "pull_request" && hasAction p "closed" then
    [.handle_pr_closed p]
  else if event_type == "workflow_run" && hasAction p "completed" then
    [.process_workflow_run p]
  else []

/-- The event types whose branch reads `payload.get("action")` before
deciding anything. -/
def isRoutedEvent (et : String) : Bool :=
  et == "installation" || et == "installation_repositories" ||
  et == "issues" || et == "pull_request" || et == "workflow_run"

/-! ## GitHub App token cache (`backend/app/services/github_auth.py`)

The HTTP exchange with GitHub's token endpoint is an external
collaborator; the model takes its outcome as an input. Time is an `Int`
of seconds so a cached expiry may lie in the past. -/

/-- Outcome of `POST /app/installations/:id/access_tokens`: a token with
its `expires_at`, or an `httpx.HTTPError` (connection failure or
`raise_for_status`). -/
inductive ExchangeResult where
  | success (token : String) (expires_at : Int) : ExchangeResult
  | failure : ExchangeResult
  deriving DecidableEq

/-- The pair of Redis entries `gh:install:{id}:token` and
`gh:install:{id}:expires_at`, written together with a common TTL. Both
are set with TTL `expires_at - now`, so Redis drops them exactly at
`expires_at`; presence of the pair is therefore `now < expires_at`. -/
structure TokenCacheEntry where
  token : String
  expires_at : Int
  deriving DecidableEq

/-- The token cache keyed by installation id. -/
def TokenCache := Nat → Option TokenCacheEntry

/-- The empty token cache. -/
def emptyTokenCache : TokenCache := fun _ => none

/-- Redis read of the cached pair at time `now` (both keys share one
expiry deadline, `expires_at` itself). -/
def tokenCacheRead (c : TokenCache) (id : Nat) (now : Int) :
    Option TokenCacheEntry :=
  match c id with
  | some e => if now < e.expires_at then some e else none
  | none => none

/-- Redis `SETEX` of the cached pair. -/
def tokenCacheWrite (c : TokenCache) (id : Nat) (e : TokenCacheEntry) :
    TokenCache :=
  fun id2 => if id2 = id then some e else c id2

/-- Network and signing actions of `get_installation_token`. -/
inductive AuthEffect where
  | mintJwt : AuthEffect
  | exchangeCall : AuthEffect
  deriving DecidableEq

/-- A Python call outcome: a returned value or a raised exception,
identified by its class name. -/
inductive PyResult (α : Type) where
  | ret (a : α) : PyResult α
  | raised (exn : String) : PyResult α

/-- Whether a call outcome is a raised exception. -/
def PyResult.isRaised {α : Type} : PyResult α → Bool
  | .ret _ => false
  | .raised _ => true

/-- A Python `datetime`: a point in time (epoch seconds) together with
whether it carries timezone information. The token endpoint's
`expires_at` is made timezone-aware by `.replace("Z", "+00:00")` before
`fromisoformat`, and the cached `expires_at` string is the isoformat of
that aware value, so it parses back aware; `datetime.utcnow()` is
naive. -/
structure PyDatetime where
  epoch : Int
  aware : Bool

/-- Python `a > b` on datetimes: comparing an aware with a naive
datetime raises `TypeError`. -/
def pyDatetimeGt (a b : PyDatetime) : Except String Bool :=
  if a.aware = b.aware then .ok (decide (b.epoch < a.epoch))
  else .error "TypeError"

/-- Python `a - b` on datetimes, in whole seconds: subtracting a naive
from an aware datetime raises `TypeError`. -/
def pyDatetimeSub (a b : PyDatetime) : Except String Int :=
  if a.aware = b.aware then .ok (a.epoch - b.epoch)
  else .error "TypeError"

/-- The mint path of `get_installation_token` (lines 90-124): generate
the app JWT, exchange it; on HTTP failure catch the error, log, and
return `None`; on success try to cache the token under both keys with
TTL `int((expires_at - datetime.utcnow()).total_seconds())` when that is
positive — but `expires_at` is timezone-aware and `utcnow()` naive, so
the subtraction raises `TypeError`, the surrounding bare
`except Exception` (line 116) swallows it, and the `SETEX` calls never
run; the fresh token is returned uncached either way. -/
def mintInstallationToken (ex : ExchangeResult) (c : TokenCache) (id : Nat)
    (now : Int) : PyResult (Option String × TokenCache × List AuthEffect) :=
  match ex with
  | .success tok exp =>
    let c2 :=
      match pyDatetimeSub ⟨exp, true⟩ ⟨now, false⟩ with
      | .ok ttl => if 0 < ttl then tokenCacheWrite c id ⟨tok, exp⟩ else c
      | .error _ => c
    .ret (some tok, c2, [.mintJwt, .exchangeCall])
  | .failure => .ret (none, c, [.mintJwt, .exchangeCall])

/-- Embedding of `get_installation_token(installation_id)` at time `now`
on cache `c`, with the exchange outcome `ex` supplied as an input. Read
both cache keys inside `try`; a present truthy entry (Python
`if cached_token and expires_at_str`) is returned only if
`expires_at > datetime.utcnow() + timedelta(minutes=5)` — but the cached
`expires_at` parses timezone-aware while `utcnow()` is naive, so that
comparison raises `TypeError`, the `except Exception` (line 87) logs a
warning, and control falls through to the mint path. -/
def get_installation_token (ex : ExchangeResult) (c : TokenCache) (id : Nat)
    (now : Int) : PyResult (Option String × TokenCache × List AuthEffect) :=
  let cacheAttempt : Except String (Option String) :=
    match tokenCacheRead c id now with
    | some e =>
      if e.token == "" then .ok none
      else
        match pyDatetimeGt ⟨e.expires_at, true⟩ ⟨now + 300, false⟩ with
        | .ok true => .ok (some e.token)
        | .ok false => .ok none
        | .error err => .error err
    | none => .ok none
  match cacheAttempt with
  | .ok (some tok) => .ret (some tok, c, [])
  | _ => mintInstallationToken ex c id now

/-- A cached entry the freshness check of `get_installation_token` was
written to serve: present, with a truthy token string, and expiring more
than five minutes past `now`. Kept for stating hypotheses about the
cache state. -/
def tokenCacheValid (c : TokenCache) (id : Nat) (now : Int) :
    Option TokenCacheEntry :=
  match c id with
  | some e =>
    if e.token == "" then none
    else if now + 300 < e.expires_at then some e else none
  | none => none

/-- An authenticated GitHub API client, reduced to its Authorization
header. -/
structure GhClient where
  authHeader : String
  deriving DecidableEq

/-- Embedding of `get_github_api_client_async(installation_id)` (lines
158-184), with `appJwt` standing for `generate_app_jwt()` (the PyJWT
RS256 signing is an external collaborator). A truthy installation id
acquires an installation token — raising `ValueError` when
`get_installation_token` returns `None` — otherwise the app JWT is used
as a Bearer credential. -/
def get_github_api_client_async (ex : ExchangeResult) (appJwt : String)
    (c : TokenCache) (installation_id : Option Nat) (now : Int) :
    PyResult (GhClient × TokenCache) :=
  match installation_id with
  | some iid =>
    if iid == 0 then .ret (⟨"Bearer " ++ appJwt⟩, c)
    else
      match get_installation_token ex c iid now with
      | .ret (some t, c2, _) => .ret (⟨"token " ++ t⟩, c2)
      | .ret (none, _, _) => .raised "ValueError"
      | .raised e => .raised e
  | none => .ret (⟨"Bearer " ++ appJwt⟩, c)

/-! ## Worker tasks (`backend/app/workers/tasks.py`, lines 93-172) -/

/-- Database writes `handle_installation` can perform. -/
inductive DbOp where
  | upsertRepo (repo_full_name : String) (installation_id : Option Json) : DbOp
  | markUninstalled (installation_id : Option Json) : DbOp
  | commit : DbOp
  | rollback : DbOp

/-- The body of the `try` block of `handle_installation`: read
`payload.get("installation", {})` and its `id`; on action `"created"`
acquire a client, fetch the installation's repositories (`repos` stands
for the fetched `full_name` list) and upsert each, then commit; on action
`"deleted"` mark the installation's repos uninstalled and commit; on any
other action do nothing. The `Except` error carries the class name of the
exception escaping the block. -/
def handleInstallationTry (ex : ExchangeResult) (appJwt : String)
    (c : TokenCache) (now : Int) (repos : List String)
    (installation_payload : Json) : Except String (List DbOp) :=
  match (do
    let installation_data ← installation_payload.pyGetD "installation" (Json.obj [])
    let installation_id ← installation_data.pyGet "id"
    pure installation_id : Except PyErr (Option Json)) with
  | .error _ => .error "AttributeError"
  | .ok installation_id =>
    match installation_payload.pyGet "action" with
    | .error _ => .error "AttributeError"
    | .ok act =>
      if actionEq act "created" then
        match get_github_api_client_async ex appJwt c
            (match installation_id with
             | some (.num n) => some n.toNat
             | _ => none) now with
        | .raised e => .error e
        | .ret _ =>
          .ok ((repos.map fun name => DbOp.upsertRepo name installation_id)
            ++ [DbOp.commit])
      else if actionEq act "deleted" then
        .ok [DbOp.markUninstalled installation_id, DbOp.commit]
      else
        .ok []

/-- Embedding of `handle_installation(installation_payload)`: run the
`try` body; on an escaping exception the `except Exception` clause rolls
the transaction back, logs, and re-raises, so the result pairs the
database writes performed with the re-raised exception class, if any. -/
def handle_installation (ex : ExchangeResult) (appJwt : String)
    (c : TokenCache) (now : Int) (repos : List String)
    (installation_payload : Json) : List DbOp × Option String :=
  match handleInstallationTry ex appJwt c now repos installation_payload with
  | .ok ops => (ops, none)
  | .error exn => ([DbOp.rollback], some exn)

/-- Embedding of `handle_installation_repositories(repositories_payload)`:
a direct delegation to `handle_installation`. -/
def handle_installation_repositories (ex : ExchangeResult) (appJwt : String)
    (c : TokenCache) (now : Int) (repos : List String)
    (repositories_payload : Json) : List DbOp × Option String :=
  handle_installation ex appJwt c now repos repositories_payload

/-! ## Theorems -/

/-- A correctly signed header is accepted: for every secret and body,
`verify_webhook_signature` returns `true` on
`"sha256=" ++ hex(HMAC_SHA256(secret, body))`. The remaining clause of
the corresponding spec property — that every single-bit mutation of the
body or secret flips the verdict — is second-preimage resistance of
HMAC-SHA256 and is neither provable nor refutable here. -/
theorem verify_accepts_valid_signature (secret body : List Nat) :
    verify_webhook_signature secret body
      ("sha256=" ++ hexdigest (hmacSha256 secret body)) = true := by
  have hdata : ("sha256=" ++ hexdigest (hmacSha256 secret body)).data
      = "sha256=".data ++ (hexdigest (hmacSha256 secret body)).data := rfl
  simp only [verify_webhook_signature, strIsEmpty, strStartsWith, strDrop,
    compare_digest, hdata]
  simp [List.isPrefixOf_iff_prefix, List.prefix_append]

/-- A header that does not start with `sha256=` — in particular the empty
header — is rejected. -/
theorem verify_fails_closed (secret body : List Nat) (hdr : String)
    (h : strStartsWith hdr "sha256=" = false) :
    verify_webhook_signature secret body hdr = false := by
  simp only [verify_webhook_signature, h]
  split <;> simp

/-- Closed instance of `verify_fails_closed` at a concrete malformed
header. -/
theorem verify_fails_closed_witness :
    strStartsWith "sha1=deadbeef" "sha256=" = false ∧
    verify_webhook_signature [115, 101, 99] [104, 105] "sha1=deadbeef" = false :=
  ⟨by decide, verify_fails_closed [115, 101, 99] [104, 105] "sha1=deadbeef" (by decide)⟩

/-- C2: on a store with no record for a delivery id, the first
`is_duplicate_delivery` call returns `false` and records the id with the
configured TTL; every later call within the TTL window returns `true` and
leaves the store — hence the record's TTL — untouched; a call at or after
the deadline returns `false` again. -/
theorem is_duplicate_delivery_ttl_window (st : Settings) (s : Store)
    (id : String) (t : Nat) (h : s (deliveryKey id) = none) :
    (is_duplicate_delivery st s t id).1 = false ∧
    (is_duplicate_delivery st s t id).2.1 (deliveryKey id)
      = some (t + st.WEBHOOK_DELIVERY_CACHE_TTL_SECONDS) ∧
    (∀ u, u < t + st.WEBHOOK_DELIVERY_CACHE_TTL_SECONDS →
      (is_duplicate_delivery st (is_duplicate_delivery st s t id).2.1 u id).1 = true ∧
      (is_duplicate_delivery st (is_duplicate_delivery st s t id).2.1 u id).2.1
        = (is_duplicate_delivery st s t id).2.1) ∧
    (∀ u, t + st.WEBHOOK_DELIVERY_CACHE_TTL_SECONDS ≤ u →
      (is_duplicate_delivery st (is_duplicate_delivery st s t id).2.1 u id).1 = false) := by
  refine ⟨?_, ?_, ?_, ?_⟩
  · simp [is_duplicate_delivery, redisExistsAt, h]
  · simp [is_duplicate_delivery, redisExistsAt, redisSetexAt, h]
  · intro u hu
    constructor <;>
      simp [is_duplicate_delivery, redisExistsAt, redisSetexAt, h, hu]
  · intro u hu
    have hd : decide (u < t + st.WEBHOOK_DELIVERY_CACHE_TTL_SECONDS) = false := by
      simp
      omega
    simp [is_duplicate_delivery, redisExistsAt, redisSetexAt, h, hd]

/-- Closed instance of `is_duplicate_delivery_ttl_window` on the empty
store for delivery id `abc-123` at time 0. -/
theorem is_duplicate_delivery_ttl_window_witness :
    emptyStore (deliveryKey "abc-123") = none ∧
    (is_duplicate_delivery defaultSettings emptyStore 0 "abc-123").1 = false ∧
    (is_duplicate_delivery defaultSettings
      (is_duplicate_delivery defaultSettings emptyStore 0 "abc-123").2.1
      100 "abc-123").1 = true ∧
    (is_duplicate_delivery defaultSettings
      (is_duplicate_delivery defaultSettings emptyStore 0 "abc-123").2.1
      3600 "abc-123").1 = false := by
  have h := is_duplicate_delivery_ttl_window defaultSettings emptyStore "abc-123" 0 rfl
  exact ⟨rfl, h.1, (h.2.2.1 100 (by decide)).1, h.2.2.2 3600 (by decide)⟩

/-- The two-round-trip machine is `is_duplicate_delivery` cut at its
await points: running one client's two steps sequentially produces the
function's result and store. -/
theorem dedupStep_models_is_duplicate_delivery (st : Settings) (now : Nat)
    (id : String) (s : Store) :
    (dedupStep st now id (dedupStep st now id s .beforeExists).1
        (dedupStep st now id s .beforeExists).2)
      = ((is_duplicate_delivery st s now id).2.1,
         .returned (is_duplicate_delivery st s now id).1) := by
  by_cases hx : redisExistsAt s now (deliveryKey id) <;>
    simp [dedupStep, is_duplicate_delivery, hx]

/-- C3 (code bug): the duplicate check is not atomic. Interleaving two
concurrent `is_duplicate_delivery` calls for the same absent delivery id
as EXISTS-A, EXISTS-B, SETEX-A, SETEX-B makes both calls observe the id
as absent and both return `false`. -/
theorem dedupe_check_and_set_race :
    ((dedupRun defaultSettings 0 "abc-123" [true, false, true, false]
        (emptyStore, DedupClient.beforeExists, DedupClient.beforeExists)).2.1
      = DedupClient.returned false) ∧
    ((dedupRun defaultSettings 0 "abc-123" [true, false, true, false]
        (emptyStore, DedupClient.beforeExists, DedupClient.beforeExists)).2.2
      = DedupClient.returned false) := by
  constructor <;> rfl

/-- On an object payload, the spec's action test coincides with the
code's lookup-then-compare. -/
theorem hasAction_obj (kvs : List (String × Json)) (s : String) :
    hasAction (.obj kvs) s = actionEq (lookupKV kvs "action") s := by
  cases h : lookupKV kvs "action" with
  | none => simp [hasAction, actionEq, h]
  | some j => cases j <;> simp [hasAction, actionEq, h]

/-- `payload.get` on a non-dict raises. -/
theorem pyGet_nonobj (p : Json) (k : String) (hp : p.isObj = false) :
    p.pyGet k = .error .attributeError := by
  cases p <;> simp_all [Json.pyGet, Json.isObj]

/-- An object-shaped JSON value is an `obj`. -/
theorem isObj_true_elim (p : Json) (hp : p.isObj = true) :
    ∃ kvs, p = .obj kvs := by
  cases p <;> simp_all [Json.isObj]

/-- On object payloads the routing section never raises and enqueues
exactly the jobs of the spec's dispatch table. -/
theorem route_event_jobs_obj (et : String) (kvs : List (String × Json)) :
    (route_event et (.obj kvs)).map Prod.fst
      = .ok (specDispatchJobs et (.obj kvs)) := by
  by_cases h1 : et = "installation"
  · subst h1
    by_cases hc : (actionEq (lookupKV kvs "action") "created" = true ∨
        actionEq (lookupKV kvs "action") "deleted" = true) <;>
      simp [route_event, specDispatchJobs, Json.pyGet, hasAction_obj,
        Except.map, hc]
  by_cases h2 : et = "installation_repositories"
  · subst h2
    by_cases hc : (actionEq (lookupKV kvs "action") "added" = true ∨
        actionEq (lookupKV kvs "action") "removed" = true) <;>
      simp [route_event, specDispatchJobs, Json.pyGet, hasAction_obj,
        Except.map, hc]
  by_cases h3 : et = "issues"
  · subst h3
    by_cases hc : (actionEq (lookupKV kvs "action") "opened" = true ∨
        actionEq (lookupKV kvs "action") "edited" = true) <;>
      simp [route_event, specDispatchJobs, Json.pyGet, hasAction_obj,
        Except.map, hc]
  by_cases h4 : et = "pull_request"
  · subst h4
    by_cases hc1 : (actionEq (lookupKV kvs "action") "opened" = true ∨
        actionEq (lookupKV kvs "action") "synchronize" = true)
    · simp [route_event, specDispatchJobs, Json.pyGet, hasAction_obj,
        Except.map, hc1]
    by_cases hc2 : actionEq (lookupKV kvs "action") "closed" = true <;>
      simp [route_event, specDispatchJobs, Json.pyGet, hasAction_obj,
        Except.map, hc1, hc2]
  by_cases h5 : et = "workflow_run"
  · subst h5
    by_cases hc : actionEq (lookupKV kvs "action") "completed" = true <;>
      simp [route_event, specDispatchJobs, Json.pyGet, hasAction_obj,
        Except.map, hc]
  by_cases hcs : (et = "check_suite" ∨ et = "check_run") <;>
    simp [route_event, specDispatchJobs, Json.pyGet, hasAction_obj,
      Except.map, h1, h2, h3, h4, h5, hcs]

/-- On non-object payloads the routing section raises `AttributeError`
under a routed event type and enqueues nothing otherwise. -/
theorem route_event_jobs_nonobj (et : String) (p : Json) (hp : p.isObj = false) :
    (route_event et p).map Prod.fst =
      if isRoutedEvent et then .error PyErr.attributeError
      else .ok [] := by
  have hg := pyGet_nonobj p "action" hp
  by_cases h1 : et = "installation"
  · subst h1; simp [route_event, isRoutedEvent, hg, Except.map]
  by_cases h2 : et = "installation_repositories"
  · subst h2; simp [route_event, isRoutedEvent, hg, Except.map]
  by_cases h3 : et = "issues"
  · subst h3; simp [route_event, isRoutedEvent, hg, Except.map]
  by_cases h4 : et = "pull_request"
  · subst h4; simp [route_event, isRoutedEvent, hg, Except.map]
  by_cases h5 : et = "workflow_run"
  · subst h5; simp [route_event, isRoutedEvent, hg, Except.map]
  by_cases hcs : (et = "check_suite" ∨ et = "check_run") <;>
    simp [route_event, isRoutedEvent, Except.map, h1, h2, h3, h4, h5, hcs]

/-- The spec's dispatch table assigns no job when the payload has no
readable action. -/
theorem specDispatchJobs_nonobj (et : String) (p : Json) (hp : p.isObj = false) :
    specDispatchJobs et p = [] := by
  cases p <;> simp_all [specDispatchJobs, hasAction, Json.isObj]

/-- C4 counterexample: the routing step raises `AttributeError` for the
event type `issues` with the (non-object) JSON payload `[]`, so it does
not hold that routing never raises for every JSON payload. -/
theorem route_event_raises_on_nonobject_payload :
    route_event "issues" (Json.arr []) = .error PyErr.attributeError := rfl

/-- C4 (amended): for every event type and JSON payload, the routing
step enqueues exactly the jobs of the spec's dispatch table — at most
one job, with the payload passed through unchanged — and never raises,
except that a non-object payload under one of the five routed event
types makes the `payload.get("action")` lookup raise `AttributeError`. -/
theorem route_event_matches_dispatch_table (et : String) (p : Json) :
    (route_event et p).map Prod.fst =
      if !p.isObj && isRoutedEvent et then .error PyErr.attributeError
      else .ok (specDispatchJobs et p) := by
  cases hp : p.isObj with
  | true =>
    obtain ⟨kvs, rfl⟩ := isObj_true_elim p hp
    simp [route_event_jobs_obj]
  | false =>
    rw [route_event_jobs_nonobj et p hp]
    by_cases hr : isRoutedEvent et = true <;>
      simp [hr, hp, specDispatchJobs_nonobj et p hp]

/-- The publish block of the `issues` branch never touches the dedupe
store. -/
theorem issuesPublishEffects_no_dedupe (p : Json) :
    ∀ e ∈ issuesPublishEffects p, e.isDedupe = false := by
  unfold issuesPublishEffects
  split
  · intro e he
    simp at he
    subst he
    rfl
  · intro e he
    simp at he

/-- The routing section never touches the dedupe store. -/
theorem route_event_effects_no_dedupe (et : String) (p : Json)
    (pr : List Job × List Effect) (h : route_event et p = .ok pr) :
    ∀ e ∈ pr.2, e.isDedupe = false := by
  unfold route_event at h
  repeat' split at h
  all_goals cases h
  all_goals intro e he
  all_goals first
    | (rcases List.mem_cons.mp he with rfl | hm
       · rfl
       · first
         | exact issuesPublishEffects_no_dedupe p e hm
         | cases hm)
    | cases he

/-- C9: with no `X-GitHub-Delivery` header the duplicate check is skipped
entirely — the store is neither read nor written — and the event is
routed per the dispatch table whatever the store holds, in particular
even when the same request was just processed. -/
theorem webhook_without_delivery_header_skips_dedupe
    (parse : List Nat → ParseOutcome) (st : Settings) (body : List Nat)
    (sigHdr eventHdr : Option String) (s : Store) (now : Nat)
    (kvs : List (String × Json))
    (hv : verify_webhook_signature st.GITHUB_WEBHOOK_SECRET body (sigHdr.getD "") = true)
    (hp : parse body = .ok (Json.obj kvs)) :
    (github_webhook parse st body sigHdr none eventHdr s now).store = s ∧
    (∀ e ∈ (github_webhook parse st body sigHdr none eventHdr s now).trace,
      e.isDedupe = false) ∧
    (github_webhook parse st body sigHdr none eventHdr s now).result = .ok 200 ∧
    (github_webhook parse st body sigHdr none eventHdr s now).jobs
      = specDispatchJobs (eventTypeOf eventHdr) (Json.obj kvs) := by
  have hmap := route_event_jobs_obj (eventTypeOf eventHdr) kvs
  cases hre : route_event (eventTypeOf eventHdr) (Json.obj kvs) with
  | error e =>
    rw [hre] at hmap
    simp [Except.map] at hmap
  | ok pr =>
    rw [hre] at hmap
    have hpr : pr.1 = specDispatchJobs (eventTypeOf eventHdr) (Json.obj kvs) := by
      simpa [Except.map] using hmap
    have hnd := route_event_effects_no_dedupe _ _ pr hre
    have hout : github_webhook parse st body sigHdr none eventHdr s now =
        { result := .ok 200, store := s, jobs := pr.1,
          trace := Effect.verifySig true :: Effect.jsonParse true :: pr.2 } := by
      simp [github_webhook, hv, hp, hre, strIsEmpty]
    rw [hout]
    refine ⟨rfl, ?_, rfl, hpr⟩
    intro e he
    rcases List.mem_cons.mp he with rfl | hm
    · rfl
    rcases List.mem_cons.mp hm with rfl | hm2
    · rfl
    exact hnd e hm2

/-- C8 (amended): on a validly signed request with a fresh delivery id
whose body fails JSON parsing, the dedupe record is written — with the
configured TTL, before the parse is attempted — and the response is 400
(for a UTF-8 body that is not valid JSON; a non-UTF-8 body instead
escapes as `UnicodeDecodeError` after the record is likewise written);
a retry of the same delivery id before the TTL deadline is answered 200
as a duplicate, with no parse, no routing and no job. -/
theorem webhook_writes_dedupe_before_parse
    (parse : List Nat → ParseOutcome) (st : Settings) (body : List Nat)
    (sigHdr eventHdr : Option String) (d : String) (s : Store) (now : Nat)
    (hv : verify_webhook_signature st.GITHUB_WEBHOOK_SECRET body (sigHdr.getD "") = true)
    (hd : strIsEmpty d = false)
    (hp : parse body = .jsonError)
    (hs : s (deliveryKey d) = none) :
    github_webhook parse st body sigHdr (some d) eventHdr s now =
      { result := .ok 400,
        store := redisSetexAt s now (deliveryKey d)
          st.WEBHOOK_DELIVERY_CACHE_TTL_SECONDS,
        jobs := [],
        trace := [.verifySig true, .redisExists (deliveryKey d) false,
          .redisSetex (deliveryKey d) st.WEBHOOK_DELIVERY_CACHE_TTL_SECONDS,
          .jsonParse false] } ∧
    (∀ u, u < now + st.WEBHOOK_DELIVERY_CACHE_TTL_SECONDS →
      github_webhook parse st body sigHdr (some d) eventHdr
          (redisSetexAt s now (deliveryKey d)
            st.WEBHOOK_DELIVERY_CACHE_TTL_SECONDS) u =
        { result := .ok 200,
          store := redisSetexAt s now (deliveryKey d)
            st.WEBHOOK_DELIVERY_CACHE_TTL_SECONDS,
          jobs := [],
          trace := [.verifySig true, .redisExists (deliveryKey d) true] }) := by
  constructor
  · simp [github_webhook, hv, hd, hp, is_duplicate_delivery, redisExistsAt, hs]
  · intro u hu
    have he : redisExistsAt (redisSetexAt s now (deliveryKey d)
        st.WEBHOOK_DELIVERY_CACHE_TTL_SECONDS) u (deliveryKey d) = true := by
      simp [redisExistsAt, redisSetexAt]
      omega
    simp [github_webhook, hv, hd, is_duplicate_delivery, he]

/-- C6 (code bug): the claim states the intended cache policy, but the
source compares the timezone-aware `expires_at` with naive
`datetime.utcnow()` at the freshness check (line 84) and subtracts them
for the TTL (line 112); both raise `TypeError`, each swallowed by a bare
`except Exception`. Evaluated at a perfectly fresh cached entry (token
`tokA` expiring at 1000, read at time 0, well beyond the five-minute
margin) with a successful exchange: the cached token is not served — a
new token is minted and returned — and the cache is left exactly as it
was, so nothing is ever cached. -/
theorem get_installation_token_timezone_bug_always_mints :
    get_installation_token (.success "tokB" 3600)
        (tokenCacheWrite emptyTokenCache 5 ⟨"tokA", 1000⟩) 5 0
      = .ret (some "tokB",
          tokenCacheWrite emptyTokenCache 5 ⟨"tokA", 1000⟩,
          [.mintJwt, .exchangeCall]) := rfl

/-- C7 counterexample: on a failed exchange with no usable cache entry,
`get_installation_token` raises nothing — no `TokenAcquisitionError`
exists anywhere in the code — and instead returns `None` normally. -/
theorem get_installation_token_failure_raises_nothing :
    (get_installation_token .failure emptyTokenCache 7 0).isRaised = false ∧
    get_installation_token .failure emptyTokenCache 7 0
      = .ret (none, emptyTokenCache, [.mintJwt, .exchangeCall]) :=
  ⟨rfl, rfl⟩

/-- C7 (amended): when the token-exchange call fails and no usable cache
entry exists, `get_installation_token` catches the HTTP error and returns
`None` (it raises no `TokenAcquisitionError`); its caller
`get_github_api_client_async` then raises `ValueError` rather than
proceeding with an empty token. -/
theorem token_exchange_failure_returns_none_and_caller_raises
    (c : TokenCache) (id : Nat) (now : Int) (appJwt : String)
    (_hvalid : tokenCacheValid c id now = none) (hid : id ≠ 0) :
    get_installation_token .failure c id now
      = .ret (none, c, [.mintJwt, .exchangeCall]) ∧
    get_github_api_client_async .failure appJwt c (some id) now
      = .raised "ValueError" := by
  have hnone : get_installation_token .failure c id now
      = .ret (none, c, [.mintJwt, .exchangeCall]) := by
    cases hce : tokenCacheRead c id now with
    | none =>
      simp [get_installation_token, hce, mintInstallationToken]
    | some e =>
      by_cases htok : e.token == "" <;>
        simp [get_installation_token, hce, htok, pyDatetimeGt,
          mintInstallationToken]
  refine ⟨hnone, ?_⟩
  have hid2 : (id == 0) = false := by
    simpa using hid
  simp [get_github_api_client_async, hid2, hnone]

/-- Closed instance of
`token_exchange_failure_returns_none_and_caller_raises` at installation
id 7 on the empty cache. -/
theorem token_exchange_failure_witness :
    get_installation_token .failure emptyTokenCache 7 0
      = .ret (none, emptyTokenCache, [.mintJwt, .exchangeCall]) ∧
    get_github_api_client_async .failure "jwt" emptyTokenCache (some 7) 0
      = .raised "ValueError" :=
  token_exchange_failure_returns_none_and_caller_raises emptyTokenCache 7 0
    "jwt" rfl (by decide)

/-- C10: an `installation_repositories` payload with action `added` or
`removed` — an object whose `installation` field, when present, is an
object, as GitHub sends it — is delegated unchanged to
`handle_installation`, whose branches act only on `created` and
`deleted`, so the handler completes with no database write and no
exception. -/
theorem handle_installation_repositories_added_removed_noop
    (ex : ExchangeResult) (appJwt : String) (c : TokenCache) (now : Int)
    (repos : List String) (kvs : List (String × Json)) (act : String)
    (ha : lookupKV kvs "action" = some (.str act))
    (hact : act = "added" ∨ act = "removed")
    (hinst : ∀ j, lookupKV kvs "installation" = some j → j.isObj = true) :
    handle_installation_repositories ex appJwt c now repos (Json.obj kvs)
      = handle_installation ex appJwt c now repos (Json.obj kvs) ∧
    handle_installation ex appJwt c now repos (Json.obj kvs) = ([], none) := by
  refine ⟨rfl, ?_⟩
  have hbody : handleInstallationTry ex appJwt c now repos (Json.obj kvs)
      = .ok [] := by
    have hact1 : actionEq (some (Json.str act)) "created" = false := by
      rcases hact with rfl | rfl <;> rfl
    have hact2 : actionEq (some (Json.str act)) "deleted" = false := by
      rcases hact with rfl | rfl <;> rfl
    cases hik : lookupKV kvs "installation" with
    | none =>
      simp [handleInstallationTry, Json.pyGetD, Json.pyGet, hik, ha,
        hact1, hact2, bind, Except.bind, pure, Except.pure]
    | some j =>
      obtain ⟨kvs2, rfl⟩ := isObj_true_elim j (hinst j hik)
      simp [handleInstallationTry, Json.pyGetD, Json.pyGet, hik, ha,
        hact1, hact2, bind, Except.bind, pure, Except.pure]
  simp [handle_installation, hbody]

/-- Closed instance of
`handle_installation_repositories_added_removed_noop` on the payload
`(action := "added")`. -/
theorem handle_installation_repositories_noop_witness :
    handle_installation_repositories .failure "jwt" emptyTokenCache 0 []
        (Json.obj [("action", Json.str "added")])
      = handle_installation .failure "jwt" emptyTokenCache 0 []
        (Json.obj [("action", Json.str "added")]) ∧
    handle_installation .failure "jwt" emptyTokenCache 0 []
        (Json.obj [("action", Json.str "added")])
      = ([], none) :=
  handle_installation_repositories_added_removed_noop .failure "jwt"
    emptyTokenCache 0 [] [("action", Json.str "added")] "added" rfl
    (Or.inl rfl) (fun _ h => nomatch h)

set_option maxRecDepth 100000

/-- Closed instance of `webhook_writes_dedupe_before_parse`: the empty
body under the empty secret, correctly signed, with delivery id
`abc-123` and an unparseable body, gets 400 and a retry at time 100 gets
200. -/
theorem webhook_writes_dedupe_before_parse_witness :
    verify_webhook_signature defaultSettings.GITHUB_WEBHOOK_SECRET []
      ((some "sha256=b613679a0814d9ec772f95d778c35fc5ff1697c493715653c6c712144292c5ad").getD "")
      = true ∧
    (github_webhook (fun _ => ParseOutcome.jsonError) defaultSettings []
        (some "sha256=b613679a0814d9ec772f95d778c35fc5ff1697c493715653c6c712144292c5ad")
        (some "abc-123") none emptyStore 0).result = .ok 400 ∧
    (github_webhook (fun _ => ParseOutcome.jsonError) defaultSettings []
        (some "sha256=b613679a0814d9ec772f95d778c35fc5ff1697c493715653c6c712144292c5ad")
        (some "abc-123") none
        (redisSetexAt emptyStore 0 (deliveryKey "abc-123")
          defaultSettings.WEBHOOK_DELIVERY_CACHE_TTL_SECONDS) 100).result
      = .ok 200 := by
  have h := webhook_writes_dedupe_before_parse
    (fun _ => ParseOutcome.jsonError) defaultSettings []
    (some "sha256=b613679a0814d9ec772f95d778c35fc5ff1697c493715653c6c712144292c5ad")
    none "abc-123" emptyStore 0 (by decide) rfl rfl rfl
  exact ⟨by decide, congrArg WebhookOutcome.result h.1,
    congrArg WebhookOutcome.result (h.2 100 (by decide))⟩

/-- Closed instance of `webhook_without_delivery_header_skips_dedupe`:
a signed `issues`/`opened` request with no delivery header leaves the
store untouched and enqueues the checklist job. -/
theorem webhook_without_delivery_header_skips_dedupe_witness :
    verify_webhook_signature defaultSettings.GITHUB_WEBHOOK_SECRET []
      ((some "sha256=b613679a0814d9ec772f95d778c35fc5ff1697c493715653c6c712144292c5ad").getD "")
      = true ∧
    (github_webhook
        (fun _ => ParseOutcome.ok (Json.obj [("action", Json.str "opened")]))
        defaultSettings []
        (some "sha256=b613679a0814d9ec772f95d778c35fc5ff1697c493715653c6c712144292c5ad")
        none (some "issues") emptyStore 0).store = emptyStore ∧
    (github_webhook
        (fun _ => ParseOutcome.ok (Json.obj [("action", Json.str "opened")]))
        defaultSettings []
        (some "sha256=b613679a0814d9ec772f95d778c35fc5ff1697c493715653c6c712144292c5ad")
        none (some "issues") emptyStore 0).jobs
      = specDispatchJobs (eventTypeOf (some "issues"))
          (Json.obj [("action", Json.str "opened")]) := by
  have h := webhook_without_delivery_header_skips_dedupe
    (fun _ => ParseOutcome.ok (Json.obj [("action", Json.str "opened")]))
    defaultSettings []
    (some "sha256=b613679a0814d9ec772f95d778c35fc5ff1697c493715653c6c712144292c5ad")
    (some "issues") emptyStore 0 [("action", Json.str "opened")]
    (by decide) rfl
  exact ⟨by decide, h.1, h.2.2.2⟩

/-- C8 counterexample: a validly signed request with a delivery id whose
body `[0xff]` is not valid JSON — it is not even valid UTF-8 — is not
answered 400: `body.decode("utf-8")` raises `UnicodeDecodeError`, which
the `except json.JSONDecodeError` clause does not catch, and the
exception escapes the handler. -/
theorem webhook_nonjson_body_not_always_400 :
    (github_webhook (fun _ => ParseOutcome.unicodeError) defaultSettings [255]
        (some "sha256=4985f8759521234ca18940b2ed17fadf89364a4d07c7259ca1aa42942861a61e")
        (some "abc-456") none emptyStore 0).result
      = .error PyErr.unicodeDecodeError := by
  rfl

end QuantumReview
